import Mathlib

/-!
Verification of the SOC report viewer application.

Shallow embedding of the source files:
- `src/my-soc-report-app/src/components/ReportViewer.tsx`
- `src/my-soc-report-app/src/components/ui/accordion.tsx`

Records arrive as untyped JSON objects; each field consumed by the viewer
is modelled as an `Option` (absent ⇒ `none`).  JSX text interpolation of an
absent value renders blank, modelled by `Option.getD ""`; optional chaining
`xs?.map(f)` over an absent collection renders nothing, modelled by
matching `none` to the empty list.
-/

/-- Element of `ServicesProvided` (`{service, description}`). -/
structure ServiceProvided where
  service : Option String := none
  description : Option String := none
deriving DecidableEq

/-- Element of `ControlObjective` (`{id, objective}`). -/
structure ControlObjectiveEntry where
  id : Option String := none
  objective : Option String := none
deriving DecidableEq

/-- Element of `ControlDescription` and `CUECDescription` (`{number, description}`). -/
structure NumberedDescription where
  number : Option String := none
  description : Option String := none
deriving DecidableEq

/-- Element of `ReportsInScope` (`{report_name, source_page, source_control}`). -/
structure ReportInScope where
  report_name : Option String := none
  source_page : Option String := none
  source_control : Option String := none
deriving DecidableEq

/-- A SOC report record, with exactly the fields `ReportViewer.tsx` reads.
Every field is optional: the fetched JSON is untyped at the boundary. -/
structure Report where
  file_name : Option String := none
  ServiceAuditor : Option String := none
  SOC1ReportType : Option String := none
  ReportPeriod : Option String := none
  AuditorOpinionDate : Option String := none
  AuditorOpinionType : Option String := none
  ThirdPartyServiceProvider : Option (List String) := none
  SubserviceProvider : Option (List String) := none
  ServicesProvided : Option (List ServiceProvided) := none
  ControlNumber : Option (List String) := none
  ControlObjective : Option (List ControlObjectiveEntry) := none
  ControlDescription : Option (List NumberedDescription) := none
  ReportsInScope : Option (List ReportInScope) := none
  ControlExceptionIdentified : Option String := none
  CUECDescription : Option (List NumberedDescription) := none
deriving DecidableEq

/-- Component state of `ReportViewer`: `reports` (useState, initially `[]`)
and `index` (useState, initially `0`).  The index is an integer because the
handlers compute with `Math.max` / `Math.min` over JS numbers. -/
structure ViewerState where
  reports : List Report
  index : Int
deriving DecidableEq

/-- Initial `ReportViewer` state: `useState<any[]>([])`, `useState(0)`. -/
def initialState : ViewerState := { reports := [], index := 0 }

/-- Source: `handlePrev = () => setIndex((prev) => Math.max(prev - 1, 0))`. -/
def handlePrev (s : ViewerState) : ViewerState :=
  { s with index := max (s.index - 1) 0 }

/-- Source: `handleNext = () => setIndex((prev) => Math.min(prev + 1, reports.length - 1))`. -/
def handleNext (s : ViewerState) : ViewerState :=
  { s with index := min (s.index + 1) ((s.reports.length : Int) - 1) }

/-- Source: `reports[index]`: `undefined` (here `none`) when the index is out of range. -/
def currentReport (s : ViewerState) : Option Report :=
  if s.index < 0 then none else s.reports.get? s.index.toNat

/-- Source: `disabled={index === 0}` on the Previous button. -/
def prevDisabled (s : ViewerState) : Bool := s.index == 0

/-- Source: `disabled={index === reports.length - 1}` on the Next button. -/
def nextDisabled (s : ViewerState) : Bool :=
  s.index == (s.reports.length : Int) - 1

/-- Observable top-level render of `ReportViewer`: either the
`Loading...` placeholder (when `!report`), or the record page with its
title (`{report.file_name}`) and the two button `disabled` flags. -/
inductive Render where
  | loading
  | page (title : String) (prevOff : Bool) (nextOff : Bool)
deriving DecidableEq

/-- The `ReportViewer` render function: early return of the placeholder
when `reports[index]` is absent, otherwise the record page. -/
def render (s : ViewerState) : Render :=
  match currentReport s with
  | none => .loading
  | some r => .page (r.file_name.getD "") (prevDisabled s) (nextDisabled s)

/-- The title shown, when a record page is rendered. -/
def displayedTitle (s : ViewerState) : Option String :=
  match render s with
  | .loading => none
  | .page t _ _ => some t

/-- User navigation events: clicking Previous or Next. -/
inductive NavEvent where
  | prev
  | next
deriving DecidableEq

/-- One event step.  The buttons (and so their handlers) exist only when a
record is rendered: with no current record the component shows only the
placeholder and the event has no effect. -/
def step (e : NavEvent) (s : ViewerState) : ViewerState :=
  match currentReport s with
  | none => s
  | some _ =>
    match e with
    | .prev => handlePrev s
    | .next => handleNext s

/-- Run a sequence of navigation events. -/
def runNav (es : List NavEvent) (s : ViewerState) : ViewerState :=
  es.foldl (fun t e => step e t) s

/-- The index is in range: `0 ≤ index ≤ reports.length - 1`. -/
def inRange (s : ViewerState) : Prop :=
  0 ≤ s.index ∧ s.index ≤ (s.reports.length : Int) - 1

/-- Outcome of the one-shot `fetch("/soc_report.json")`. -/
inductive FetchResult where
  | success (data : List Report)
  | failure (err : String)

/-- Effect of the `useEffect` fetch on the state: on success
`setReports(data)`; on failure the catch handler only logs, so the state
keeps its initial value. -/
def afterFetch : FetchResult → ViewerState
  | .success data => { initialState with reports := data }
  | .failure _ => initialState

/-- Console output of the fetch: `console.error("Failed to load JSON:", err)`
on failure, nothing on success. -/
def fetchLog : FetchResult → List String
  | .success _ => []
  | .failure err => ["Failed to load JSON: " ++ err]

/-!
Disclosure primitive, from `accordion.tsx`.  Each `AccordionItem` owns one
`useState(false)` flag; its trigger and content read it through
`AccordionItemContext`.
-/

/-- Per-instance state of an `AccordionItem`: the `open` flag
(`useState(false)`; `open` is a Lean keyword, hence `isOpen`). -/
structure AccordionItemState where
  isOpen : Bool
deriving DecidableEq

/-- Source: `useState(false)`: every item starts closed. -/
def accordionItemInit : AccordionItemState := { isOpen := false }

/-- Source: `toggle = () => setOpen((prev) => !prev)`. -/
def AccordionItemState.toggle (s : AccordionItemState) : AccordionItemState :=
  { s with isOpen := !s.isOpen }

/-- The only event an item reacts to: a click on its trigger button
(`onClick={toggle}`). -/
inductive AccordionEvent where
  | triggerClick
deriving DecidableEq

/-- Item transition function. -/
def accordionStep : AccordionEvent → AccordionItemState → AccordionItemState
  | .triggerClick, s => s.toggle

/-- What `AccordionTrigger` renders: the label and the `open ? "−" : "+"`
indicator. -/
structure TriggerView where
  label : String
  indicator : String
deriving DecidableEq

/-- Source: `AccordionTrigger`: throws when used outside an `AccordionItem`
(`context` is `undefined`), otherwise renders the button. -/
def renderAccordionTrigger (ctx : Option AccordionItemState) (children : String) :
    Except String TriggerView :=
  match ctx with
  | none => .error "AccordionTrigger must be used within an AccordionItem"
  | some c => .ok { label := children, indicator := if c.isOpen then "−" else "+" }

/-- Source: `AccordionContent`: throws when used outside an `AccordionItem`;
otherwise `context.open ? <div>{children}</div> : null` — `none` models the
content being absent from the output (unmounted), not merely hidden. -/
def renderAccordionContent (ctx : Option AccordionItemState) (children : String) :
    Except String (Option String) :=
  match ctx with
  | none => .error "AccordionContent must be used within an AccordionItem"
  | some c => .ok (if c.isOpen then some children else none)

/-- A page holds several `AccordionItem` instances, each with its own
state; here listed in document order. -/
def toggleAt : List AccordionItemState → Nat → List AccordionItemState
  | [], _ => []
  | s :: rest, 0 => s.toggle :: rest
  | s :: rest, Nat.succ j => s :: toggleAt rest j

/-!
Section bodies rendered inside each `AccordionContent` of
`ReportViewer.tsx`.  `xs?.map(f)` over an absent collection contributes no
list items; text interpolation of an absent scalar renders blank.
-/

/-- Source: `report.ThirdPartyServiceProvider?.map((s, i) => <li><strong>{s}</strong></li>)`. -/
def renderThirdPartyItems (r : Report) : List String :=
  match r.ThirdPartyServiceProvider with
  | none => []
  | some xs => xs.map (fun s => s)

/-- Source: `report.SubserviceProvider?.map((s, i) => <li>{s}</li>)`. -/
def renderSubserviceItems (r : Report) : List String :=
  match r.SubserviceProvider with
  | none => []
  | some xs => xs.map (fun s => s)

/-- Source: `report.ServicesProvided?.map(...)`: `<strong>{s.service}:</strong> {s.description}`. -/
def renderServicesItems (r : Report) : List String :=
  match r.ServicesProvided with
  | none => []
  | some xs => xs.map (fun s => s.service.getD "" ++ ": " ++ s.description.getD "")

/-- Source: `report.ControlNumber?.map((obj, i) => <li><strong>{obj}</strong></li>)`. -/
def renderControlNumberItems (r : Report) : List String :=
  match r.ControlNumber with
  | none => []
  | some xs => xs.map (fun s => s)

/-- Source: `report.ControlObjective?.map(...)`: `<strong>{obj.id}:</strong> {obj.objective}`. -/
def renderControlObjectiveItems (r : Report) : List String :=
  match r.ControlObjective with
  | none => []
  | some xs => xs.map (fun o => o.id.getD "" ++ ": " ++ o.objective.getD "")

/-- Source: `report.ControlDescription?.map(...)`: `<strong>{obj.number}:</strong> {obj.description}`. -/
def renderControlDescriptionItems (r : Report) : List String :=
  match r.ControlDescription with
  | none => []
  | some xs => xs.map (fun o => o.number.getD "" ++ ": " ++ o.description.getD "")

/-- Source: `report.ReportsInScope?.map(...)`:
`<strong>{r.report_name}</strong> (Page {r.source_page}, Control: {r.source_control})`. -/
def renderReportsInScopeItems (r : Report) : List String :=
  match r.ReportsInScope with
  | none => []
  | some xs => xs.map (fun x =>
      x.report_name.getD "" ++ " (Page " ++ x.source_page.getD ""
        ++ ", Control: " ++ x.source_control.getD "" ++ ")")

/-- Source: `report.CUECDescription?.map(...)`: `<strong>{cuec.number}:</strong> {cuec.description}`. -/
def renderCUECItems (r : Report) : List String :=
  match r.CUECDescription with
  | none => []
  | some xs => xs.map (fun o => o.number.getD "" ++ ": " ++ o.description.getD "")

/-- Source: `<p>{report.ControlExceptionIdentified}</p>`: blank when absent. -/
def renderControlExceptionText (r : Report) : String :=
  r.ControlExceptionIdentified.getD ""

/-- Source: `{report.AuditorOpinionType}` inside the first section: blank when absent. -/
def renderAuditorOpinionText (r : Report) : String :=
  r.AuditorOpinionType.getD ""

/-! ### Helper lemmas -/

lemma runNav_cons (e : NavEvent) (es : List NavEvent) (s : ViewerState) :
    runNav (e :: es) s = runNav es (step e s) := rfl

lemma inRange_handlePrev (s : ViewerState) (h : inRange s) :
    inRange (handlePrev s) := by
  obtain ⟨h1, h2⟩ := h
  constructor <;> simp only [handlePrev] <;> omega

lemma inRange_handleNext (s : ViewerState) (h : inRange s) :
    inRange (handleNext s) := by
  obtain ⟨h1, h2⟩ := h
  constructor <;> simp only [handleNext] <;> omega

lemma inRange_step (e : NavEvent) (s : ViewerState) (h : inRange s) :
    inRange (step e s) := by
  cases hc : currentReport s with
  | none => simpa [step, hc] using h
  | some r =>
    cases e with
    | prev => simpa [step, hc] using inRange_handlePrev s h
    | next => simpa [step, hc] using inRange_handleNext s h

lemma inRange_runNav (es : List NavEvent) (s : ViewerState) (h : inRange s) :
    inRange (runNav es s) := by
  induction es generalizing s with
  | nil => exact h
  | cons e es ih => exact runNav_cons e es s ▸ ih (step e s) (inRange_step e s h)

lemma displayedTitle_eq (s : ViewerState) :
    displayedTitle s = (currentReport s).map (fun r => r.file_name.getD "") := by
  unfold displayedTitle render
  cases currentReport s <;> simp

lemma currentReport_empty (s : ViewerState) (h : s.reports = []) :
    currentReport s = none := by
  unfold currentReport
  rw [h]
  split <;> simp

lemma step_empty (e : NavEvent) (s : ViewerState) (h : s.reports = []) :
    step e s = s := by
  simp [step, currentReport_empty s h]

lemma runNav_empty (es : List NavEvent) (s : ViewerState) (h : s.reports = []) :
    runNav es s = s := by
  induction es with
  | nil => rfl
  | cons e es ih => rw [runNav_cons, step_empty e s h]; exact ih

/-! ### Concrete states used by witnesses and counterexamples -/

/-- A state with one (all-fields-absent) record, at index 0. -/
def wState : ViewerState := { reports := [{}], index := 0 }

/-- A state with two records, at index 0. -/
def wState2 : ViewerState := { reports := [{}, {}], index := 0 }

/-- A state with two records, at the last index. -/
def ceState : ViewerState := { reports := [{}, {}], index := 1 }

/-- A record as the spec scenario delivers it. -/
def wReport : Report := { file_name := some "A.pdf" }

/-- The record with every field absent. -/
def emptyReport : Report := {}

/-! ### Claim theorems -/

/-- C2: `handlePrev` decrements with floor 0 and `handleNext` increments
with ceiling `length - 1`; each is a no-op at its boundary (previous at
index 0, next at the last index), its button is disabled there, and the
index stays in `[0, length - 1]` under every sequence of navigation
events. -/
theorem nav_clamped (s : ViewerState) (es : List NavEvent) :
    (s.index = 0 → handlePrev s = s ∧ prevDisabled s = true) ∧
    (s.index = (s.reports.length : Int) - 1 →
      handleNext s = s ∧ nextDisabled s = true) ∧
    (inRange s → inRange (runNav es s)) := by
  refine ⟨fun h => ⟨?_, ?_⟩, fun h => ⟨?_, ?_⟩, fun h => inRange_runNav es s h⟩
  · cases s with
    | mk reports index =>
      simp only [handlePrev, ViewerState.mk.injEq]
      simp_all
  · simp [prevDisabled, h]
  · cases s with
    | mk reports index =>
      simp only [handleNext, ViewerState.mk.injEq]
      simp_all
  · simp [nextDisabled, h]

/-- Witness for C2 at a one-record state (index 0 is also the last index)
and a concrete event sequence. -/
theorem nav_clamped_witness :
    (handlePrev wState = wState ∧ prevDisabled wState = true) ∧
    (handleNext wState = wState ∧ nextDisabled wState = true) ∧
    inRange (runNav [NavEvent.next, NavEvent.prev] wState) := by
  have h := nav_clamped wState [NavEvent.next, NavEvent.prev]
  exact ⟨h.1 rfl, h.2.1 (by decide), h.2.2 ⟨by decide, by decide⟩⟩

/-- C1 as stated is false: at the last index, Next is a no-op and Previous
then decrements, so Next-then-Previous does not return to the original
index.  Concretely, with two records and index 1 (in range), the round
trip ends at index 0. -/
theorem next_prev_round_trip_fails :
    inRange ceState ∧ ceState.index = 1 ∧
    (handlePrev (handleNext ceState)).index = 0 := by
  exact ⟨⟨by decide, by decide⟩, by decide, by decide⟩

/-- C1 amended: for every state with the index in range and strictly below
the last index (i.e. the Next button is not at its boundary), Next then
Previous returns to the original index, and the displayed title is the
file name of the record at the resulting index. -/
theorem next_prev_round_trip (s : ViewerState) (h0 : 0 ≤ s.index)
    (h1 : s.index < (s.reports.length : Int) - 1) :
    (handlePrev (handleNext s)).index = s.index ∧
    displayedTitle (handlePrev (handleNext s)) =
      (currentReport (handlePrev (handleNext s))).map
        (fun r => r.file_name.getD "") := by
  constructor
  · simp only [handlePrev, handleNext]
    omega
  · exact displayedTitle_eq _

/-- Witness for C1 amended: two records, index 0. -/
theorem next_prev_round_trip_witness :
    (handlePrev (handleNext wState2)).index = wState2.index ∧
    displayedTitle (handlePrev (handleNext wState2)) =
      (currentReport (handlePrev (handleNext wState2))).map
        (fun r => r.file_name.getD "") :=
  next_prev_round_trip wState2 (by decide) (by decide)

/-- C3: when the fetch fails, the failure is logged, the report array
stays empty under every later event sequence (there is no retry), and the
viewer renders only the loading placeholder, never record content. -/
theorem fetch_failure_silent (err : String) (es : List NavEvent) :
    (afterFetch (.failure err)).reports = [] ∧
    fetchLog (.failure err) = ["Failed to load JSON: " ++ err] ∧
    runNav es (afterFetch (.failure err)) = afterFetch (.failure err) ∧
    render (runNav es (afterFetch (.failure err))) = .loading := by
  have hfix : runNav es (afterFetch (.failure err)) = afterFetch (.failure err) :=
    runNav_empty es _ rfl
  refine ⟨rfl, rfl, hfix, ?_⟩
  rw [hfix]
  simp [render, currentReport_empty (afterFetch (.failure err)) rfl]

/-- C9: for every non-empty fetched array, the viewer initializes at index
0 and the rendered title is the file name of the first record. -/
theorem fetch_success_init (data : List Report) (r : Report)
    (h : data.head? = some r) :
    (afterFetch (.success data)).index = 0 ∧
    displayedTitle (afterFetch (.success data)) = some (r.file_name.getD "") := by
  refine ⟨rfl, ?_⟩
  rw [displayedTitle_eq]
  have hc : currentReport (afterFetch (.success data)) = some r := by
    cases data with
    | nil => simp at h
    | cons a t =>
      simp only [List.head?_cons, Option.some.injEq] at h
      unfold currentReport afterFetch initialState
      simp [h]
  rw [hc]
  rfl

/-- Witness for C9: the single-record array of the spec scenario. -/
theorem fetch_success_init_witness :
    (afterFetch (.success [wReport])).index = 0 ∧
    displayedTitle (afterFetch (.success [wReport])) =
      some (wReport.file_name.getD "") :=
  fetch_success_init [wReport] wReport rfl

/-- C10: a successful fetch of an empty array leaves the viewer showing
the loading placeholder under every event sequence; the placeholder is
shown whenever no record exists at the current index; and the resulting
state equals the state after a fetch failure (observably
indistinguishable). -/
theorem empty_load_indistinguishable (err : String) (es : List NavEvent)
    (s : ViewerState) :
    render (runNav es (afterFetch (.success []))) = .loading ∧
    afterFetch (.success []) = afterFetch (.failure err) ∧
    (currentReport s = none → render s = .loading) := by
  refine ⟨?_, rfl, fun h => ?_⟩
  · rw [runNav_empty es _ rfl]
    simp [render, currentReport_empty (afterFetch (.success [])) rfl]
  · simp [render, h]

/-- Witness for C10 at concrete inputs. -/
theorem empty_load_indistinguishable_witness :
    render (runNav [NavEvent.next] (afterFetch (.success []))) = .loading ∧
    afterFetch (.success []) = afterFetch (.failure "boom") ∧
    render initialState = .loading := by
  have h := empty_load_indistinguishable "boom" [NavEvent.next] initialState
  exact ⟨h.1, h.2.1, h.2.2 rfl⟩

/-- C4: a record whose optional collection (or scalar) field is absent
renders the corresponding section as a zero-item list (or blank text);
every renderer is total, so absence never raises an error. -/
theorem absent_fields_render_empty (r : Report) :
    (r.ThirdPartyServiceProvider = none → renderThirdPartyItems r = []) ∧
    (r.SubserviceProvider = none → renderSubserviceItems r = []) ∧
    (r.ServicesProvided = none → renderServicesItems r = []) ∧
    (r.ControlNumber = none → renderControlNumberItems r = []) ∧
    (r.ControlObjective = none → renderControlObjectiveItems r = []) ∧
    (r.ControlDescription = none → renderControlDescriptionItems r = []) ∧
    (r.ReportsInScope = none → renderReportsInScopeItems r = []) ∧
    (r.CUECDescription = none → renderCUECItems r = []) ∧
    (r.ControlExceptionIdentified = none → renderControlExceptionText r = "") ∧
    (r.AuditorOpinionType = none → renderAuditorOpinionText r = "") := by
  refine ⟨fun h => ?_, fun h => ?_, fun h => ?_, fun h => ?_, fun h => ?_,
    fun h => ?_, fun h => ?_, fun h => ?_, fun h => ?_, fun h => ?_⟩
  · simp [renderThirdPartyItems, h]
  · simp [renderSubserviceItems, h]
  · simp [renderServicesItems, h]
  · simp [renderControlNumberItems, h]
  · simp [renderControlObjectiveItems, h]
  · simp [renderControlDescriptionItems, h]
  · simp [renderReportsInScopeItems, h]
  · simp [renderCUECItems, h]
  · simp [renderControlExceptionText, h]
  · simp [renderAuditorOpinionText, h]

/-- Witness for C4 at the record with every field absent. -/
theorem absent_fields_render_empty_witness :
    renderThirdPartyItems emptyReport = [] ∧
    renderSubserviceItems emptyReport = [] ∧
    renderServicesItems emptyReport = [] ∧
    renderControlNumberItems emptyReport = [] ∧
    renderControlObjectiveItems emptyReport = [] ∧
    renderControlDescriptionItems emptyReport = [] ∧
    renderReportsInScopeItems emptyReport = [] ∧
    renderCUECItems emptyReport = [] ∧
    renderControlExceptionText emptyReport = "" ∧
    renderAuditorOpinionText emptyReport = "" := by
  have h := absent_fields_render_empty emptyReport
  exact ⟨h.1 rfl, h.2.1 rfl, h.2.2.1 rfl, h.2.2.2.1 rfl, h.2.2.2.2.1 rfl,
    h.2.2.2.2.2.1 rfl, h.2.2.2.2.2.2.1 rfl, h.2.2.2.2.2.2.2.1 rfl,
    h.2.2.2.2.2.2.2.2.1 rfl, h.2.2.2.2.2.2.2.2.2 rfl⟩

/-- C5: toggling a disclosure item is an involution on every starting
state, so after two toggles from the initial (closed) state the content is
again absent from the render. -/
theorem toggle_involution (s : AccordionItemState) (c : String) :
    s.toggle.toggle = s ∧
    renderAccordionContent (some accordionItemInit.toggle.toggle) c = .ok none ∧
    renderAccordionContent (some accordionItemInit) c = .ok none := by
  refine ⟨?_, rfl, rfl⟩
  cases s with
  | mk b => simp [AccordionItemState.toggle]

/-- C6: every disclosure item starts closed; its content is in the output
exactly when it is open and is `none` (unmounted) when closed; the only
transition, caused by a trigger click, flips closed to open and open to
closed. -/
theorem disclosure_state_machine (s : AccordionItemState) (c : String) :
    accordionItemInit.isOpen = false ∧
    (renderAccordionContent (some s) c = .ok (some c) ↔ s.isOpen = true) ∧
    (renderAccordionContent (some s) c = .ok none ↔ s.isOpen = false) ∧
    (accordionStep .triggerClick s).isOpen = !s.isOpen := by
  cases s with
  | mk b =>
    cases b <;>
      simp [renderAccordionContent, accordionStep, AccordionItemState.toggle,
        accordionItemInit]

/-- Witness for C6: one trigger click from the initial state mounts the
content. -/
theorem disclosure_state_machine_witness :
    renderAccordionContent
      (some (accordionStep .triggerClick accordionItemInit)) "body" =
      .ok (some "body") := by
  have h := disclosure_state_machine
    (accordionStep .triggerClick accordionItemInit) "body"
  exact h.2.1.mpr rfl

/-- C7: toggling the item at one position leaves the state of every item
at any other position unchanged — instances are independent. -/
theorem toggle_independent (items : List AccordionItemState) (j k : Nat)
    (h : k ≠ j) :
    (toggleAt items j).get? k = items.get? k := by
  induction items generalizing j k with
  | nil => simp [toggleAt]
  | cons s rest ih =>
    cases j with
    | zero =>
      cases k with
      | zero => exact absurd rfl h
      | succ k => simp [toggleAt]
    | succ j =>
      cases k with
      | zero => simp [toggleAt]
      | succ k =>
        simp only [toggleAt, List.get?_cons_succ]
        exact ih j k (fun hk => h (by rw [hk]))

/-- Witness for C7: toggling item 0 of a two-item page leaves item 1
unchanged. -/
theorem toggle_independent_witness :
    (toggleAt [accordionItemInit, accordionItemInit.toggle] 0).get? 1 =
      [accordionItemInit, accordionItemInit.toggle].get? 1 :=
  toggle_independent [accordionItemInit, accordionItemInit.toggle] 0 1
    (by decide)

/-- C8: rendering the trigger or the content outside a disclosure item
(no ambient context) raises an error immediately, with the exact message
thrown by the source. -/
theorem misuse_raises (c : String) :
    renderAccordionTrigger none c =
      .error "AccordionTrigger must be used within an AccordionItem" ∧
    renderAccordionContent none c =
      .error "AccordionContent must be used within an AccordionItem" :=
  ⟨rfl, rfl⟩
